import Mathlib

/-!
# CheapLCD: backlight state and keypad decoding

A shallow embedding of the class CheapLCD of src/CheapLCD.h.

* The two data members mBacklightLevel (uint8_t) and mBacklightOn (bool) are
  fields of the structure CheapLCD.
* The platform primitives digitalWrite, pinMode and analogWrite and the
  inherited LiquidCrystal::begin have no body in this repository. Each call
  is recorded, in program order, in the field hw of the state, so the effect
  of a method on the hardware is the list of primitive calls it appends.
* analogRead is an input primitive: it is passed to readButton as a function
  from pins to the int it returns.
* uint8_t and uint16_t values are natural numbers; every conversion into one
  of these types is an explicit reduction modulo 2^8 or 2^16.
-/

/-- Modelled from the spec: the board header that numbers the pins is absent
from the sources, so a pin is kept symbolic, either digital pin n or analog
pin n (the spec lists the keypad on analog pin 0 and the backlight on digital
pin 10). -/
inductive Pin where
  | digital (n : Nat)
  | analog (n : Nat)
deriving DecidableEq, Repr

/-- Arduino logic levels, the second argument of digitalWrite. -/
inductive PinLevel where
  | LOW
  | HIGH
deriving DecidableEq, Repr

/-- Arduino pin directions, the second argument of pinMode. -/
inductive PinMode where
  | INPUT
  | OUTPUT
deriving DecidableEq, Repr

/-- One call of a platform primitive or of the inherited LCD driver. -/
inductive HwOp where
  | digitalWrite (pin : Pin) (val : PinLevel)
  | pinMode (pin : Pin) (mode : PinMode)
  | analogWrite (pin : Pin) (val : Int)
  | lcdBegin (cols rows : Nat)
deriving DecidableEq, Repr

/-- What a pin was last told to drive: a logic level or a PWM duty value. -/
inductive PinOutput where
  | digital (val : PinLevel)
  | pwm (val : Int)
deriving DecidableEq, Repr

/-- The enum CLCD_Button_t, constructors in declaration order (BTN_NONE = 0). -/
inductive CLCD_Button_t where
  | BTN_NONE
  | BTN_RIGHT
  | BTN_UP
  | BTN_DOWN
  | BTN_LEFT
  | BTN_SELECT
deriving DecidableEq, Repr

/-- Modelled from the spec: the constant A0 of the absent board header, the
keypad analog input, analog pin 0. -/
def A0 : Pin := Pin.analog 0

/-- The keypad pin, #define CLCD_KBD_PIN A0. -/
def CLCD_KBD_PIN : Pin := A0

/-- The backlight pin, #define CLCD_BACKLIGHT_PIN 10. -/
def CLCD_BACKLIGHT_PIN : Pin := Pin.digital 10

/-- Conversion of an int to uint8_t: reduction modulo 2^8. -/
def uint8_t (v : Int) : Nat := (v % 256).toNat

/-- Conversion of an int to uint16_t: reduction modulo 2^16. -/
def uint16_t (v : Int) : Nat := (v % 65536).toNat

/-- The object state (mBacklightLevel, mBacklightOn) together with hw, the
primitive calls issued so far, oldest first. -/
structure CheapLCD where
  mBacklightLevel : Nat
  mBacklightOn : Bool
  hw : List HwOp
deriving DecidableEq, Repr

/-- Effect of one primitive call on what a given pin drives: a digitalWrite or
analogWrite to that pin replaces it, every other call leaves it alone. -/
def driveStep (pin : Pin) (cur : Option PinOutput) (op : HwOp) : Option PinOutput :=
  match op with
  | HwOp.digitalWrite p v => if p = pin then some (PinOutput.digital v) else cur
  | HwOp.analogWrite p v => if p = pin then some (PinOutput.pwm v) else cur
  | HwOp.pinMode _ _ => cur
  | HwOp.lcdBegin _ _ => cur

/-- The output last written to a pin by a list of primitive calls, none when
the pin was never written. -/
def pinOutput (pin : Pin) (ops : List HwOp) : Option PinOutput :=
  ops.foldl (driveStep pin) none

namespace CheapLCD

/-- Platform primitive digitalWrite(pin, val), recorded. -/
def digitalWrite (pin : Pin) (val : PinLevel) (s : CheapLCD) : CheapLCD :=
  { s with hw := s.hw ++ [HwOp.digitalWrite pin val] }

/-- Platform primitive pinMode(pin, mode), recorded. -/
def pinMode (pin : Pin) (mode : PinMode) (s : CheapLCD) : CheapLCD :=
  { s with hw := s.hw ++ [HwOp.pinMode pin mode] }

/-- Platform primitive analogWrite(pin, val), recorded; val is an int. -/
def analogWrite (pin : Pin) (val : Int) (s : CheapLCD) : CheapLCD :=
  { s with hw := s.hw ++ [HwOp.analogWrite pin val] }

/-- Inherited LiquidCrystal::begin(cols, rows), recorded as one call. The
driver was constructed on pins 4 to 9 and is taken not to write pin 10. -/
def LiquidCrystal_begin (cols rows : Nat) (s : CheapLCD) : CheapLCD :=
  { s with hw := s.hw ++ [HwOp.lcdBegin cols rows] }

/-- Private method setupPins. -/
def setupPins (s : CheapLCD) : CheapLCD :=
  let s := digitalWrite CLCD_BACKLIGHT_PIN PinLevel.LOW s
  let s := pinMode CLCD_BACKLIGHT_PIN PinMode.OUTPUT s
  pinMode CLCD_KBD_PIN PinMode.INPUT s

/-- Private method setBacklight. -/
def setBacklight (s : CheapLCD) : CheapLCD :=
  if s.mBacklightOn then analogWrite CLCD_BACKLIGHT_PIN (s.mBacklightLevel : Int) s
  else digitalWrite CLCD_BACKLIGHT_PIN PinLevel.LOW s

/-- Method begin(bool backlightOnNow, uint8_t backlightLevel). The level
parameter is a uint8_t, so the argument is reduced modulo 2^8 on entry. -/
def begin (backlightOnNow : Bool) (backlightLevel : Nat) (s : CheapLCD) : CheapLCD :=
  let s := { s with mBacklightLevel := backlightLevel % 256 }
  let s := if backlightOnNow then { s with mBacklightOn := true }
           else { s with mBacklightOn := false }
  let s := setupPins s
  let s := setBacklight s
  LiquidCrystal_begin 16 2 s

/-- Method begin(void). -/
def begin_void (s : CheapLCD) : CheapLCD :=
  begin true 255 s

/-- Method backlightOn. -/
def backlightOn (s : CheapLCD) : CheapLCD :=
  setBacklight { s with mBacklightOn := true }

/-- Method backlightOff. -/
def backlightOff (s : CheapLCD) : CheapLCD :=
  setBacklight { s with mBacklightOn := false }

/-- Method backlightLevel(uint8_t level). The parameter is a uint8_t, so the
argument is reduced modulo 2^8 on entry. -/
def backlightLevel (level : Nat) (s : CheapLCD) : CheapLCD :=
  { s with mBacklightLevel := level % 256 }

/-- Method backlightLevel(int level). -/
def backlightLevel_int (level : Int) (s : CheapLCD) : CheapLCD :=
  let level := if level > 255 then 255 else if level < 0 then 0 else level
  backlightLevel (uint8_t level) s

/-- Method readButton. The argument analogRead is the platform primitive; the
int it returns for the keypad pin is converted to the uint16_t adcValue. The
method writes no member and calls no output primitive, so the state is
returned as it came. -/
def readButton (analogRead : Pin → Int) (s : CheapLCD) : CLCD_Button_t × CheapLCD :=
  let adcValue : Nat := uint16_t (analogRead CLCD_KBD_PIN)
  if adcValue < 75 then (CLCD_Button_t.BTN_RIGHT, s)
  else if adcValue < 250 then (CLCD_Button_t.BTN_UP, s)
  else if adcValue < 400 then (CLCD_Button_t.BTN_DOWN, s)
  else if adcValue < 600 then (CLCD_Button_t.BTN_LEFT, s)
  else if adcValue < 900 then (CLCD_Button_t.BTN_SELECT, s)
  else (CLCD_Button_t.BTN_NONE, s)

/-- What the backlight pin currently drives. -/
def backlightPin (s : CheapLCD) : Option PinOutput :=
  pinOutput CLCD_BACKLIGHT_PIN s.hw

/-- The invariant of the data model: the backlight pin drives PWM at the
stored level when the flag is set, and digital low when it is clear. -/
def Applied (s : CheapLCD) : Prop :=
  backlightPin s =
    some (if s.mBacklightOn then PinOutput.pwm (s.mBacklightLevel : Int)
          else PinOutput.digital PinLevel.LOW)

instance (s : CheapLCD) : Decidable (Applied s) := by
  unfold Applied; infer_instance

/-- A freshly constructed object before begin: members at arbitrary values
(here 0 and false), no primitive called yet. -/
def fresh : CheapLCD := { mBacklightLevel := 0, mBacklightOn := false, hw := [] }

end CheapLCD

namespace CheapLCD

/-! ## Auxiliary facts -/

theorem uint16_t_natCast (v : Nat) (hv : v < 65536) : uint16_t (v : Int) = v := by
  unfold uint16_t
  omega

theorem uint8_t_natCast (v : Nat) (hv : v < 256) : uint8_t (v : Int) = v := by
  unfold uint8_t
  omega

theorem pinOutput_snoc (pin : Pin) (ops : List HwOp) (op : HwOp) :
    pinOutput pin (ops ++ [op]) = driveStep pin (pinOutput pin ops) op := by
  simp [pinOutput, List.foldl_append]

theorem backlightPin_setBacklight (s : CheapLCD) :
    backlightPin (setBacklight s) =
      some (if s.mBacklightOn then PinOutput.pwm (s.mBacklightLevel : Int)
            else PinOutput.digital PinLevel.LOW) := by
  unfold backlightPin setBacklight
  cases h : s.mBacklightOn <;>
    simp [analogWrite, digitalWrite, pinOutput_snoc, driveStep]

theorem setBacklight_members (s : CheapLCD) :
    (setBacklight s).mBacklightOn = s.mBacklightOn ∧
      (setBacklight s).mBacklightLevel = s.mBacklightLevel := by
  unfold setBacklight
  cases h : s.mBacklightOn <;> simp [analogWrite, digitalWrite, h]

theorem readButton_fst (analogRead : Pin → Int) (s : CheapLCD) (v : Nat)
    (hv : v < 65536) (hread : analogRead CLCD_KBD_PIN = (v : Int)) :
    (readButton analogRead s).1 =
      (if v < 75 then CLCD_Button_t.BTN_RIGHT
       else if v < 250 then CLCD_Button_t.BTN_UP
       else if v < 400 then CLCD_Button_t.BTN_DOWN
       else if v < 600 then CLCD_Button_t.BTN_LEFT
       else if v < 900 then CLCD_Button_t.BTN_SELECT
       else CLCD_Button_t.BTN_NONE) := by
  unfold readButton
  rw [hread, uint16_t_natCast v hv]
  simp only []
  split_ifs <;> rfl

theorem readButton_snd (analogRead : Pin → Int) (s : CheapLCD) :
    (readButton analogRead s).2 = s := by
  unfold readButton
  simp only []
  split_ifs <;> rfl

theorem begin_hw (backlightOnNow : Bool) (L : Nat) (s : CheapLCD) :
    (begin backlightOnNow L s).hw =
      s.hw ++ [HwOp.digitalWrite CLCD_BACKLIGHT_PIN PinLevel.LOW,
               HwOp.pinMode CLCD_BACKLIGHT_PIN PinMode.OUTPUT,
               HwOp.pinMode CLCD_KBD_PIN PinMode.INPUT,
               (if backlightOnNow then HwOp.analogWrite CLCD_BACKLIGHT_PIN ((L % 256 : Nat) : Int)
                else HwOp.digitalWrite CLCD_BACKLIGHT_PIN PinLevel.LOW),
               HwOp.lcdBegin 16 2] := by
  cases backlightOnNow <;>
    simp [begin, setupPins, setBacklight, LiquidCrystal_begin, analogWrite, digitalWrite,
      pinMode]

theorem begin_members (backlightOnNow : Bool) (L : Nat) (s : CheapLCD) :
    (begin backlightOnNow L s).mBacklightOn = backlightOnNow ∧
      (begin backlightOnNow L s).mBacklightLevel = L % 256 := by
  cases backlightOnNow <;>
    simp [begin, setupPins, setBacklight, LiquidCrystal_begin, analogWrite, digitalWrite,
      pinMode]

theorem backlightPin_begin (backlightOnNow : Bool) (L : Nat) (s : CheapLCD) :
    backlightPin (begin backlightOnNow L s) =
      some (if backlightOnNow then PinOutput.pwm ((L % 256 : Nat) : Int)
            else PinOutput.digital PinLevel.LOW) := by
  unfold backlightPin
  rw [begin_hw]
  cases backlightOnNow <;>
    simp [pinOutput, List.foldl_append, driveStep, CLCD_BACKLIGHT_PIN, CLCD_KBD_PIN, A0]

theorem clamp_uint8_t (L : Int) :
    ((uint8_t (if L > 255 then 255 else if L < 0 then 0 else L) % 256 : Nat) : Int) =
      max 0 (min 255 L) := by
  unfold uint8_t
  split_ifs <;> omega

/-- The mutators that end in setBacklight establish the invariant Applied. -/
theorem applied_begin (backlightOnNow : Bool) (L : Nat) (s : CheapLCD) :
    Applied (begin backlightOnNow L s) := by
  unfold Applied
  rw [backlightPin_begin, (begin_members backlightOnNow L s).1,
    (begin_members backlightOnNow L s).2]

theorem applied_backlightOn (s : CheapLCD) : Applied (backlightOn s) := by
  unfold Applied backlightOn
  rw [backlightPin_setBacklight, (setBacklight_members _).1, (setBacklight_members _).2]

theorem applied_backlightOff (s : CheapLCD) : Applied (backlightOff s) := by
  unfold Applied backlightOff
  rw [backlightPin_setBacklight, (setBacklight_members _).1, (setBacklight_members _).2]

/-! ## Keypad decoding -/

/-- C1: for every 16-bit unsigned sample v (so for every v in [0,1023]) read
from the keypad pin, readButton returns RIGHT if v < 75, else UP if v < 250,
else DOWN if v < 400, else LEFT if v < 600, else SELECT if v < 900, else NONE;
the result is NONE exactly when v >= 900; and the ten boundary samples 74, 75,
249, 250, 399, 400, 599, 600, 899, 900 decode to RIGHT, UP, UP, DOWN, DOWN,
LEFT, LEFT, SELECT, SELECT, NONE. -/
theorem readButton_band_table (analogRead : Pin → Int) (s : CheapLCD) (v : Nat)
    (hv : v < 65536) (hread : analogRead CLCD_KBD_PIN = (v : Int)) :
    (readButton analogRead s).1 =
        (if v < 75 then CLCD_Button_t.BTN_RIGHT
         else if v < 250 then CLCD_Button_t.BTN_UP
         else if v < 400 then CLCD_Button_t.BTN_DOWN
         else if v < 600 then CLCD_Button_t.BTN_LEFT
         else if v < 900 then CLCD_Button_t.BTN_SELECT
         else CLCD_Button_t.BTN_NONE) ∧
      ((readButton analogRead s).1 = CLCD_Button_t.BTN_NONE ↔ 900 ≤ v) ∧
      (readButton (fun _ => 74) s).1 = CLCD_Button_t.BTN_RIGHT ∧
      (readButton (fun _ => 75) s).1 = CLCD_Button_t.BTN_UP ∧
      (readButton (fun _ => 249) s).1 = CLCD_Button_t.BTN_UP ∧
      (readButton (fun _ => 250) s).1 = CLCD_Button_t.BTN_DOWN ∧
      (readButton (fun _ => 399) s).1 = CLCD_Button_t.BTN_DOWN ∧
      (readButton (fun _ => 400) s).1 = CLCD_Button_t.BTN_LEFT ∧
      (readButton (fun _ => 599) s).1 = CLCD_Button_t.BTN_LEFT ∧
      (readButton (fun _ => 600) s).1 = CLCD_Button_t.BTN_SELECT ∧
      (readButton (fun _ => 899) s).1 = CLCD_Button_t.BTN_SELECT ∧
      (readButton (fun _ => 900) s).1 = CLCD_Button_t.BTN_NONE := by
  refine ⟨readButton_fst analogRead s v hv hread, ?_, ?_, ?_, ?_, ?_, ?_, ?_, ?_, ?_, ?_, ?_⟩
  · rw [readButton_fst analogRead s v hv hread]
    split_ifs <;> simp <;> omega
  · exact readButton_fst _ s 74 (by decide) rfl
  · exact readButton_fst _ s 75 (by decide) rfl
  · exact readButton_fst _ s 249 (by decide) rfl
  · exact readButton_fst _ s 250 (by decide) rfl
  · exact readButton_fst _ s 399 (by decide) rfl
  · exact readButton_fst _ s 400 (by decide) rfl
  · exact readButton_fst _ s 599 (by decide) rfl
  · exact readButton_fst _ s 600 (by decide) rfl
  · exact readButton_fst _ s 899 (by decide) rfl
  · exact readButton_fst _ s 900 (by decide) rfl

/-- Witness for C1 at the sample 1023, the top of the 10-bit range. -/
theorem readButton_band_table_witness :
    (readButton (fun _ => 1023) fresh).1 = CLCD_Button_t.BTN_NONE ∧
      ((readButton (fun _ => 1023) fresh).1 = CLCD_Button_t.BTN_NONE ↔ 900 ≤ 1023) :=
  ⟨(readButton_band_table (fun _ => 1023) fresh 1023 (by decide) rfl).1,
   (readButton_band_table (fun _ => 1023) fresh 1023 (by decide) rfl).2.1⟩

/-- C8: readButton has no side effect and depends on the sample alone: it
returns the state it was given (so the on flag, the stored level and the
backlight pin output are unchanged), and two calls whose keypad samples agree
return the same button whatever the two controller states are. -/
theorem readButton_pure (analogRead analogRead2 : Pin → Int) (s s2 : CheapLCD)
    (hsame : analogRead CLCD_KBD_PIN = analogRead2 CLCD_KBD_PIN) :
    (readButton analogRead s).2 = s ∧
      (readButton analogRead s).2.mBacklightOn = s.mBacklightOn ∧
      (readButton analogRead s).2.mBacklightLevel = s.mBacklightLevel ∧
      backlightPin (readButton analogRead s).2 = backlightPin s ∧
      (readButton analogRead s).1 = (readButton analogRead2 s2).1 := by
  refine ⟨readButton_snd _ _, ?_, ?_, ?_, ?_⟩
  · rw [readButton_snd]
  · rw [readButton_snd]
  · rw [readButton_snd]
  · unfold readButton
    rw [hsame]
    simp only []
    split_ifs <;> rfl

/-- Witness for C8: sample 500 seen from a fresh object through one reader,
and from an object after begin(true, 200) through another reader that agrees
on the keypad pin only. -/
theorem readButton_pure_witness :
    (readButton (fun _ => 500) fresh).2 = fresh ∧
      (readButton (fun _ => 500) fresh).1 =
        (readButton (fun p => if p = CLCD_KBD_PIN then 500 else 7) (begin true 200 fresh)).1 :=
  ⟨(readButton_pure (fun _ => 500) (fun p => if p = CLCD_KBD_PIN then 500 else 7)
      fresh (begin true 200 fresh) (by decide)).1,
   (readButton_pure (fun _ => 500) (fun p => if p = CLCD_KBD_PIN then 500 else 7)
      fresh (begin true 200 fresh) (by decide)).2.2.2.2⟩

/-- C10: each of the six buttons is returned for some sample in [0,1023], and
for a sample v in [0,1023] the result is RIGHT exactly on [0,74], UP exactly
on [75,249], DOWN exactly on [250,399], LEFT exactly on [400,599], SELECT
exactly on [600,899] and NONE exactly on [900,1023]: six contiguous bands that
partition the 10-bit range. -/
theorem readButton_bands_partition (analogRead : Pin → Int) (s : CheapLCD) (v : Nat)
    (hv : v ≤ 1023) (hread : analogRead CLCD_KBD_PIN = (v : Int)) :
    (∀ b : CLCD_Button_t, ∃ w : Nat, w ≤ 1023 ∧ (readButton (fun _ => (w : Int)) s).1 = b) ∧
      ((readButton analogRead s).1 = CLCD_Button_t.BTN_RIGHT ↔ 0 ≤ v ∧ v ≤ 74) ∧
      ((readButton analogRead s).1 = CLCD_Button_t.BTN_UP ↔ 75 ≤ v ∧ v ≤ 249) ∧
      ((readButton analogRead s).1 = CLCD_Button_t.BTN_DOWN ↔ 250 ≤ v ∧ v ≤ 399) ∧
      ((readButton analogRead s).1 = CLCD_Button_t.BTN_LEFT ↔ 400 ≤ v ∧ v ≤ 599) ∧
      ((readButton analogRead s).1 = CLCD_Button_t.BTN_SELECT ↔ 600 ≤ v ∧ v ≤ 899) ∧
      ((readButton analogRead s).1 = CLCD_Button_t.BTN_NONE ↔ 900 ≤ v ∧ v ≤ 1023) := by
  refine ⟨?_, ?_⟩
  · intro b
    cases b
    · exact ⟨1023, by decide, readButton_fst _ s 1023 (by decide) rfl⟩
    · exact ⟨0, by decide, readButton_fst _ s 0 (by decide) rfl⟩
    · exact ⟨75, by decide, readButton_fst _ s 75 (by decide) rfl⟩
    · exact ⟨250, by decide, readButton_fst _ s 250 (by decide) rfl⟩
    · exact ⟨400, by decide, readButton_fst _ s 400 (by decide) rfl⟩
    · exact ⟨600, by decide, readButton_fst _ s 600 (by decide) rfl⟩
  · rw [readButton_fst analogRead s v (by omega) hread]
    split_ifs <;> simp <;> omega

/-- Witness for C10 at the sample 300, inside the DOWN band. -/
theorem readButton_bands_partition_witness :
    (readButton (fun _ => 300) fresh).1 = CLCD_Button_t.BTN_DOWN :=
  (readButton_bands_partition (fun _ => 300) fresh 300 (by decide) rfl).2.2.2.1.mpr
    (by decide)

/-! ## Backlight state -/

/-- C2: for every signed integer L the level stored by backlightLevel(int) is
max(0, min(255, L)); the clamp saturates and the conversion to uint8_t never
wraps: 256 is stored as 255 and -1 as 0. -/
theorem backlightLevel_int_saturates (L : Int) (s : CheapLCD) :
    ((backlightLevel_int L s).mBacklightLevel : Int) = max 0 (min 255 L) ∧
      (backlightLevel_int 256 s).mBacklightLevel = 255 ∧
      (backlightLevel_int (-1) s).mBacklightLevel = 0 := by
  refine ⟨?_, ?_, ?_⟩
  · simp only [backlightLevel_int, backlightLevel]
    exact clamp_uint8_t L
  · simp [backlightLevel_int, backlightLevel, uint8_t]
  · simp [backlightLevel_int, backlightLevel, uint8_t]

/-- C3, evaluated on the code: after begin(true, 255), from any prior state,
a call of backlightLevel(100) through either overload leaves the flag true and
stores level 100, but issues no primitive call: the backlight pin still drives
PWM 255, so the pin does not reflect the stored level. -/
theorem backlightLevel_not_applied (s0 : CheapLCD) :
    (backlightLevel 100 (begin true 255 s0)).mBacklightOn = true ∧
      (backlightLevel 100 (begin true 255 s0)).mBacklightLevel = 100 ∧
      (backlightLevel 100 (begin true 255 s0)).hw = (begin true 255 s0).hw ∧
      backlightPin (backlightLevel 100 (begin true 255 s0)) = some (PinOutput.pwm 255) ∧
      ¬ Applied (backlightLevel 100 (begin true 255 s0)) ∧
      ¬ Applied (backlightLevel_int 100 (begin true 255 s0)) := by
  have hp : backlightPin (backlightLevel 100 (begin true 255 s0)) =
      some (PinOutput.pwm 255) := by
    have h := backlightPin_begin true 255 s0
    simpa [backlightPin, backlightLevel] using h
  have hm := begin_members true 255 s0
  have hi : backlightLevel_int 100 (begin true 255 s0) =
      backlightLevel 100 (begin true 255 s0) := by
    simp [backlightLevel_int, uint8_t]
  have hn : ¬ Applied (backlightLevel 100 (begin true 255 s0)) := by
    unfold Applied
    rw [hp]
    simp [backlightLevel, hm.1]
  refine ⟨?_, ?_, ?_, hp, hn, ?_⟩
  · simpa [backlightLevel] using hm.1
  · simp [backlightLevel]
  · simp [backlightLevel]
  · rw [hi]
    exact hn

/-- C4: backlightLevel, through either overload, leaves the on flag as it
was; after backlightOff() followed by backlightLevel(x) or backlightLevel(L)
the flag is false and the backlight pin is driven digital low. -/
theorem backlightLevel_keeps_flag (x : Nat) (L : Int) (s : CheapLCD) :
    (backlightLevel x s).mBacklightOn = s.mBacklightOn ∧
      (backlightLevel_int L s).mBacklightOn = s.mBacklightOn ∧
      (backlightLevel x (backlightOff s)).mBacklightOn = false ∧
      backlightPin (backlightLevel x (backlightOff s)) =
        some (PinOutput.digital PinLevel.LOW) ∧
      (backlightLevel_int L (backlightOff s)).mBacklightOn = false ∧
      backlightPin (backlightLevel_int L (backlightOff s)) =
        some (PinOutput.digital PinLevel.LOW) := by
  have hoff : (backlightOff s).mBacklightOn = false := by
    simpa [backlightOff] using (setBacklight_members { s with mBacklightOn := false }).1
  have hpin : backlightPin (backlightOff s) = some (PinOutput.digital PinLevel.LOW) := by
    simpa [backlightOff] using backlightPin_setBacklight { s with mBacklightOn := false }
  refine ⟨rfl, rfl, ?_, ?_, ?_, ?_⟩
  · exact hoff
  · exact hpin
  · exact hoff
  · exact hpin

/-- C5: for every level L in [0,255], begin(false, L) followed by
backlightOn() leaves the on flag true, the stored level L and the backlight
pin at PWM L; and from any state a level stored by backlightLevel(L), or by
backlightLevel(int) with argument M, is the level driven by the next
backlightOn(), also when the backlight was switched off in between. -/
theorem backlightOn_drives_stored_level (L : Nat) (M : Int) (s : CheapLCD) (hL : L < 256) :
    (backlightOn (begin false L s)).mBacklightOn = true ∧
      (backlightOn (begin false L s)).mBacklightLevel = L ∧
      backlightPin (backlightOn (begin false L s)) = some (PinOutput.pwm (L : Int)) ∧
      backlightPin (backlightOn (backlightLevel L s)) = some (PinOutput.pwm (L : Int)) ∧
      backlightPin (backlightOn (backlightLevel L (backlightOff s))) =
        some (PinOutput.pwm (L : Int)) ∧
      backlightPin (backlightOn (backlightLevel_int M (backlightOff s))) =
        some (PinOutput.pwm (max 0 (min 255 M))) := by
  have hmod : L % 256 = L := Nat.mod_eq_of_lt hL
  have hm := begin_members false L s
  have hon : ∀ t : CheapLCD, backlightPin (backlightOn t) =
      some (PinOutput.pwm (t.mBacklightLevel : Int)) := by
    intro t
    simpa [backlightOn] using backlightPin_setBacklight { t with mBacklightOn := true }
  have hmem : ∀ t : CheapLCD, (backlightOn t).mBacklightOn = true ∧
      (backlightOn t).mBacklightLevel = t.mBacklightLevel := by
    intro t
    simpa [backlightOn] using setBacklight_members { t with mBacklightOn := true }
  refine ⟨(hmem _).1, ?_, ?_, ?_, ?_, ?_⟩
  · rw [(hmem _).2, hm.2, hmod]
  · rw [hon, hm.2, hmod]
  · rw [hon]
    simp [backlightLevel, hmod]
  · rw [hon]
    simp [backlightLevel, hmod]
  · rw [hon]
    simp only [backlightLevel_int, backlightLevel]
    rw [clamp_uint8_t M]

/-- Witness for C5 at L = 128, from a fresh object. -/
theorem backlightOn_drives_stored_level_witness :
    (backlightOn (begin false 128 fresh)).mBacklightOn = true ∧
      backlightPin (backlightOn (begin false 128 fresh)) = some (PinOutput.pwm 128) :=
  ⟨(backlightOn_drives_stored_level 128 300 fresh (by decide)).1,
   (backlightOn_drives_stored_level 128 300 fresh (by decide)).2.2.1⟩

/-- C6: from every prior state begin() yields the very state begin(true, 255)
yields: on flag true, level 255, backlight pin at PWM 255, and the same pin
configuration and LCD start-up calls appended to the record. -/
theorem begin_void_eq_begin_true_255 (s : CheapLCD) :
    begin_void s = begin true 255 s ∧
      (begin_void s).mBacklightOn = true ∧
      (begin_void s).mBacklightLevel = 255 ∧
      backlightPin (begin_void s) = some (PinOutput.pwm 255) ∧
      (begin_void s).hw =
        s.hw ++ [HwOp.digitalWrite CLCD_BACKLIGHT_PIN PinLevel.LOW,
                 HwOp.pinMode CLCD_BACKLIGHT_PIN PinMode.OUTPUT,
                 HwOp.pinMode CLCD_KBD_PIN PinMode.INPUT,
                 HwOp.analogWrite CLCD_BACKLIGHT_PIN 255,
                 HwOp.lcdBegin 16 2] := by
  unfold begin_void
  refine ⟨rfl, (begin_members true 255 s).1, (begin_members true 255 s).2, ?_, ?_⟩
  · simpa using backlightPin_begin true 255 s
  · simpa using begin_hw true 255 s

/-- C7: backlightOff() clears the on flag, drives the backlight pin digital
low whatever the stored level, and keeps the stored level; in the scenario
begin(true, 200), readButton on sample 500, backlightOff(), the button is LEFT
and afterwards the pin is digital low with the level still 200. -/
theorem backlightOff_drives_low (analogRead : Pin → Int) (s : CheapLCD)
    (hread : analogRead CLCD_KBD_PIN = 500) :
    (backlightOff s).mBacklightOn = false ∧
      backlightPin (backlightOff s) = some (PinOutput.digital PinLevel.LOW) ∧
      (backlightOff s).mBacklightLevel = s.mBacklightLevel ∧
      (readButton analogRead (begin true 200 s)).1 = CLCD_Button_t.BTN_LEFT ∧
      backlightPin (backlightOff (readButton analogRead (begin true 200 s)).2) =
        some (PinOutput.digital PinLevel.LOW) ∧
      (backlightOff (readButton analogRead (begin true 200 s)).2).mBacklightLevel = 200 ∧
      (backlightOff (readButton analogRead (begin true 200 s)).2).mBacklightOn = false := by
  have hoff : ∀ t : CheapLCD, (backlightOff t).mBacklightOn = false ∧
      (backlightOff t).mBacklightLevel = t.mBacklightLevel := by
    intro t
    simpa [backlightOff] using setBacklight_members { t with mBacklightOn := false }
  have hpin : ∀ t : CheapLCD,
      backlightPin (backlightOff t) = some (PinOutput.digital PinLevel.LOW) := by
    intro t
    simpa [backlightOff] using backlightPin_setBacklight { t with mBacklightOn := false }
  refine ⟨(hoff s).1, hpin s, (hoff s).2, ?_, hpin _, ?_, (hoff _).1⟩
  · exact readButton_fst analogRead _ 500 (by decide) hread
  · rw [(hoff _).2, readButton_snd, (begin_members true 200 s).2]

/-- Witness for C7: the scenario run from a fresh object. -/
theorem backlightOff_drives_low_witness :
    (readButton (fun _ => 500) (begin true 200 fresh)).1 = CLCD_Button_t.BTN_LEFT ∧
      backlightPin (backlightOff (readButton (fun _ => 500) (begin true 200 fresh)).2) =
        some (PinOutput.digital PinLevel.LOW) :=
  ⟨(backlightOff_drives_low (fun _ => 500) fresh rfl).2.2.2.1,
   (backlightOff_drives_low (fun _ => 500) fresh rfl).2.2.2.2.1⟩

/-- C9: for every flag and every level L in [0,255], begin stores the level
and the flag, and appends exactly these primitive calls, in this order: write
the backlight pin (digital 10) low, set it to output, set the keypad pin
(analog 0) to input, apply the backlight state (analogWrite of L if on,
digital low if off), start the LCD driver with 16 columns and 2 rows. The
write-low is the first call and the switch to output the second. -/
theorem begin_effects_in_order (backlightOnNow : Bool) (L : Nat) (s : CheapLCD)
    (hL : L < 256) :
    (begin backlightOnNow L s).mBacklightLevel = L ∧
      (begin backlightOnNow L s).mBacklightOn = backlightOnNow ∧
      (begin backlightOnNow L s).hw =
        s.hw ++ [HwOp.digitalWrite (Pin.digital 10) PinLevel.LOW,
                 HwOp.pinMode (Pin.digital 10) PinMode.OUTPUT,
                 HwOp.pinMode (Pin.analog 0) PinMode.INPUT,
                 (if backlightOnNow then HwOp.analogWrite (Pin.digital 10) (L : Int)
                  else HwOp.digitalWrite (Pin.digital 10) PinLevel.LOW),
                 HwOp.lcdBegin 16 2] := by
  have hmod : L % 256 = L := Nat.mod_eq_of_lt hL
  have hm := begin_members backlightOnNow L s
  refine ⟨by rw [hm.2, hmod], hm.1, ?_⟩
  rw [begin_hw, hmod]
  rfl

/-- Witness for C9: begin(false, 128) on a fresh object. -/
theorem begin_effects_in_order_witness :
    (begin false 128 fresh).hw =
      [HwOp.digitalWrite (Pin.digital 10) PinLevel.LOW,
       HwOp.pinMode (Pin.digital 10) PinMode.OUTPUT,
       HwOp.pinMode (Pin.analog 0) PinMode.INPUT,
       HwOp.digitalWrite (Pin.digital 10) PinLevel.LOW,
       HwOp.lcdBegin 16 2] :=
  (begin_effects_in_order false 128 fresh (by decide)).2.2

end CheapLCD
